import Mathlib

/-!
Shallow embedding of the timetable scheduling and conflict-detection
subsystem of the School-Management-System backend
(src/backend/src/lib/time.utils.ts,
 src/backend/src/controllers/admin.controller.ts,
 src/backend/src/controllers/teacher.controller.ts).

Conventions of the embedding:
* A validated "HH:MM" time string is represented by its parsed pair of
  hour and minute fields (structure `HM`); `isValidTimeFormat` embeds
  the range check the source performs after the regex match.
* A UTC-midnight-normalized calendar date is represented by its day
  number since the Unix epoch (1970-01-01, a Thursday), so JavaScript's
  `getUTCDay()` is `(n + 4) % 7` with Sunday = 0.
* Entity ids (slots, users) are natural numbers.
* The persistent store is a `DB`: the list of timetable slot rows plus
  the set of user ids that have role TEACHER.  `prisma.findMany` over a
  `where` clause is embedded as `List.filter` with the corresponding
  predicate; `prisma.$transaction` is embedded by returning the
  unchanged `DB` whenever the transaction body throws.
* Controller outcomes are the `ApiResult` inductive: HTTP 400 is
  `validationError`, 404 is `notFoundError`, 409 is `conflictError`
  (tagged with which conflict category the handler reported), and the
  2xx path is `ok` carrying the rows returned and the new store state.
-/

namespace SchoolMS

/-- Parsed form of a well-formed `"HH:MM"` time string. -/
structure HM where
  hh : Nat
  mm : Nat
deriving DecidableEq, Repr

/-- Embeds `isValidTimeFormat` (src/lib/time.utils.ts): after the
`^\d{2}:\d{2}$` regex, hours must be 0..23 and minutes 0..59. -/
def isValidTimeFormat (t : HM) : Bool :=
  t.hh ≤ 23 && t.mm ≤ 59

/-- Embeds `timeToMinutes` (src/lib/time.utils.ts): minutes since midnight. -/
def timeToMinutes (t : HM) : Nat :=
  t.hh * 60 + t.mm

/-- Embeds `doTimeSlotsOverlap` (src/lib/time.utils.ts):
`Math.max(start1, start2) < Math.min(end1, end2)`. -/
def doTimeSlotsOverlap (t1Start t1End t2Start t2End : HM) : Bool :=
  max (timeToMinutes t1Start) (timeToMinutes t2Start)
    < min (timeToMinutes t1End) (timeToMinutes t2End)

/-- The Prisma `DayOfWeek` enum. -/
inductive DayOfWeek where
  | MONDAY | TUESDAY | WEDNESDAY | THURSDAY | FRIDAY | SATURDAY | SUNDAY
deriving DecidableEq, Repr

/-- Embeds `getDayOfWeekFromDate` (src/lib/time.utils.ts): indexes
`[SUNDAY, MONDAY, ..., SATURDAY]` by `date.getUTCDay()`.  A date is its
epoch-day number; day 0 (1970-01-01) was a Thursday, so
`getUTCDay = (n + 4) % 7`. -/
def getDayOfWeekFromDate (epochDay : Nat) : DayOfWeek :=
  match (epochDay + 4) % 7 with
  | 0 => DayOfWeek.SUNDAY
  | 1 => DayOfWeek.MONDAY
  | 2 => DayOfWeek.TUESDAY
  | 3 => DayOfWeek.WEDNESDAY
  | 4 => DayOfWeek.THURSDAY
  | 5 => DayOfWeek.FRIDAY
  | _ => DayOfWeek.SATURDAY

/-- A row of the TimetableSlot table.  The section column is called
sectionName here because section is a Lean keyword.  Ids are natural
numbers standing for the cuid strings the store generates; a date is its
UTC epoch-day number. -/
structure TimetableSlot where
  id : Nat
  dayOfWeek : DayOfWeek
  startTime : HM
  endTime : HM
  currentClass : String
  sectionName : Option String
  subject : String
  teacherId : Option Nat
  substituteTeacherId : Option Nat
  date : Option Nat
deriving DecidableEq, Repr

/-- The persistent store: the timetable rows in insertion order, the set
of user ids whose role is TEACHER, and the next fresh row id. -/
structure DB where
  slots : List TimetableSlot
  teachers : List Nat
  nextId : Nat
deriving DecidableEq, Repr

/-- Which conflict category a 409 response reports. -/
inductive ConflictKind where
  | teacherConflict
  | classSectionConflict
  | substituteConflict
deriving DecidableEq, Repr

/-- Outcome of a handler call: 400 validation failure, 404, 409 conflict
(tagged with its category and, when the handler includes one, the
offending row), or the 2xx path carrying the returned rows and the new
store state.  Handlers that fail never change the store: every failing
path in the source either returns before any write or throws inside a
transaction that rolls back. -/
inductive ApiResult where
  | validationError (msg : String)
  | notFoundError (msg : String)
  | conflictError (kind : ConflictKind) (conflicting : Option TimetableSlot)
  | internalError
  | ok (rows : List TimetableSlot) (db : DB)
deriving DecidableEq, Repr

/-- The store state after a call, given that failing responses leave the
store untouched (rollback / fail-before-write). -/
def dbAfter (db : DB) (r : ApiResult) : DB :=
  match r with
  | ApiResult.ok _ db2 => db2
  | _ => db

/-- Tests whether a result is a 409 of the given category. -/
def ApiResult.isConflict (k : ConflictKind) : ApiResult → Bool
  | ApiResult.conflictError k2 _ => k2 == k
  | _ => false

/-- Tests whether a result is a 2xx. -/
def ApiResult.isOk : ApiResult → Bool
  | ApiResult.ok _ _ => true
  | _ => false

/-- Embeds the empty-string-to-null normalization the handlers apply to
the section field. -/
def normalizeSection (s : Option String) : Option String :=
  match s with
  | some str => if str = "" then none else some str
  | none => none

/-- Request body of POST /admin/timetable (createOrUpdateTimetableSlot). -/
structure TimetableSlotPayload where
  id : Option Nat
  dayOfWeek : DayOfWeek
  startTime : HM
  endTime : HM
  currentClass : String
  sectionName : Option String
  subject : String
  teacherId : Option Nat
  date : Option Nat
deriving DecidableEq, Repr

/-- Embeds the id-exclusion filter the conflict queries apply when the
payload carries an id (update mode): the where clause `id: { not: id }`. -/
def slotExcluded (excludeId : Option Nat) (s : TimetableSlot) : Bool :=
  match excludeId with
  | some i => s.id != i
  | none => true

/-- Embeds conflict query 1 of createOrUpdateTimetableSlot: findMany
where teacherId and dayOfWeek match (note: no date filter, no
substituteTeacherId clause in the source), excluding the updated id,
followed by the loop returning the first row whose interval overlaps
the candidate. -/
def findTeacherConflict (db : DB) (t : Nat) (day : DayOfWeek)
    (excludeId : Option Nat) (startTime endTime : HM) : Option TimetableSlot :=
  (db.slots.filter (fun s =>
      s.teacherId == some t && s.dayOfWeek == day && slotExcluded excludeId s)).find?
    (fun s => doTimeSlotsOverlap s.startTime s.endTime startTime endTime)

/-- Embeds conflict query 2 of createOrUpdateTimetableSlot: findMany
where currentClass, section and dayOfWeek match (again no date filter),
excluding the updated id, followed by the loop returning the first
overlapping row. -/
def findClassConflict (db : DB) (cls : String) (sec : Option String) (day : DayOfWeek)
    (excludeId : Option Nat) (startTime endTime : HM) : Option TimetableSlot :=
  (db.slots.filter (fun s =>
      s.currentClass == cls && s.sectionName == sec && s.dayOfWeek == day
        && slotExcluded excludeId s)).find?
    (fun s => doTimeSlotsOverlap s.startTime s.endTime startTime endTime)

/-- Embeds the early-return validation block of createOrUpdateTimetableSlot,
in source order: required fields (empty string is falsy in JS), time
format, start strictly before end, then teacher existence with role
TEACHER.  Returns the 400 message when some check fails. -/
def upsertValidation (db : DB) (p : TimetableSlotPayload) : Option String :=
  if p.currentClass = "" ∨ p.subject = "" then
    some "Day of week, start time, end time, currentClass, and subject are required."
  else if ¬ (isValidTimeFormat p.startTime = true ∧ isValidTimeFormat p.endTime = true) then
    some "Invalid startTime or endTime format. Use HH:MM."
  else if timeToMinutes p.endTime ≤ timeToMinutes p.startTime then
    some "Start time must be before end time."
  else
    match p.teacherId with
    | some t => if t ∈ db.teachers then none else some "Teacher not found or is not a teacher."
    | none => none

/-- The row written by createOrUpdateTimetableSlot: every field comes
from the payload (dayOfWeek is the caller-supplied value, date the
normalized payload date), except the id and the substituteTeacherId,
which the update data object does not mention. -/
def slotDataOf (p : TimetableSlotPayload) (sec : Option String) (idv : Nat)
    (sub : Option Nat) : TimetableSlot :=
  { id := idv, dayOfWeek := p.dayOfWeek, startTime := p.startTime, endTime := p.endTime,
    currentClass := p.currentClass, sectionName := sec, subject := p.subject,
    teacherId := p.teacherId, substituteTeacherId := sub, date := p.date }

/-- Embeds the persistence step of createOrUpdateTimetableSlot: update by
id when the payload has one (an unknown id makes the store throw, which
the handler surfaces as a 5xx), create with a fresh id otherwise. -/
def upsertWrite (db : DB) (p : TimetableSlotPayload) (sec : Option String) : ApiResult :=
  match p.id with
  | some i =>
    if db.slots.any (fun s => s.id == i) then
      let newSlots := db.slots.map
        (fun s => if s.id = i then slotDataOf p sec s.id s.substituteTeacherId else s)
      ApiResult.ok (newSlots.filter (fun s => s.id == i)) { db with slots := newSlots }
    else ApiResult.internalError
  | none =>
    let newSlot := slotDataOf p sec db.nextId none
    ApiResult.ok [newSlot] { db with slots := db.slots ++ [newSlot], nextId := db.nextId + 1 }

/-- Embeds createOrUpdateTimetableSlot (src/controllers/admin.controller.ts):
validation, then the teacher-conflict check (run first, only when a
teacherId is present), then the class/section-conflict check, then the
write.  Store-level unique-constraint failures (the P2002 catch) are not
modeled; the prisma schema is not part of the sources. -/
def createOrUpdateTimetableSlot (db : DB) (p : TimetableSlotPayload) : ApiResult :=
  match upsertValidation db p with
  | some msg => ApiResult.validationError msg
  | none =>
    let sec := normalizeSection p.sectionName
    match (match p.teacherId with
           | some t => findTeacherConflict db t p.dayOfWeek p.id p.startTime p.endTime
           | none => none) with
    | some c => ApiResult.conflictError ConflictKind.teacherConflict (some c)
    | none =>
      match findClassConflict db p.currentClass sec p.dayOfWeek p.id p.startTime p.endTime with
      | some c => ApiResult.conflictError ConflictKind.classSectionConflict (some c)
      | none => upsertWrite db p sec

/-- One element of the slots array of POST /admin/alternate-timetable. -/
structure AlternateSlotPayload where
  startTime : HM
  endTime : HM
  currentClass : String
  sectionName : Option String
  subject : String
  teacherId : Option Nat
deriving DecidableEq, Repr

/-- Embeds the in-place normalization the validation loop applies to each
slot of the batch (empty-string section becomes null; the empty-string
teacherId case has no counterpart for numeric ids). -/
def normalizeAltSlot (s : AlternateSlotPayload) : AlternateSlotPayload :=
  { s with sectionName := normalizeSection s.sectionName }

/-- Embeds the per-slot validation of setAlternateTimetable, in source
order: required fields, time format, start strictly before end, teacher
existence. -/
def validateAltSlot (teachers : List Nat) (s : AlternateSlotPayload) : Option String :=
  if s.currentClass = "" ∨ s.subject = "" then
    some "Each slot must have startTime, endTime, currentClass, and subject."
  else if ¬ (isValidTimeFormat s.startTime = true ∧ isValidTimeFormat s.endTime = true) then
    some "Invalid time format in slot. Use HH:MM."
  else if timeToMinutes s.endTime ≤ timeToMinutes s.startTime then
    some "StartTime must be before endTime in slot."
  else
    match s.teacherId with
    | some t => if t ∈ teachers then none else some "Teacher for slot not found or is not a teacher."
    | none => none

/-- Embeds the teacher-clash filter predicate the transaction loop of
setAlternateTimetable evaluates between a batch element s and the
current element c: s.teacherId is truthy, equals c.teacherId, and the
intervals overlap (the source additionally requires s and c to be
different array elements, modeled by index inequality at the call
sites). -/
def altTeacherPairConflict (s c : AlternateSlotPayload) : Bool :=
  s.teacherId.isSome && s.teacherId == c.teacherId
    && doTimeSlotsOverlap s.startTime s.endTime c.startTime c.endTime

/-- Embeds the class/section-clash filter predicate of the same loop:
equal class, equal (null-normalized) section, overlapping intervals. -/
def altClassPairConflict (s c : AlternateSlotPayload) : Bool :=
  s.currentClass == c.currentClass && s.sectionName == c.sectionName
    && doTimeSlotsOverlap s.startTime s.endTime c.startTime c.endTime

/-- Embeds the create loop of the setAlternateTimetable transaction.
all is the whole (normalized) batch; the second argument the enumerated
remainder still to insert.  For each element, in order: throw the
teacher clash if some other batch element clashes on teacher, else
throw the class/section clash if one clashes on class/section, else
insert a fresh row bound to the target date with the day derived from
it.  A throw aborts the whole transaction. -/
def altCreateLoop (all : List AlternateSlotPayload) (date : Nat) (dow : DayOfWeek) :
    DB → List (Nat × AlternateSlotPayload) → Except ConflictKind (List TimetableSlot × DB)
  | db, [] => Except.ok ([], db)
  | db, (j, slotData) :: rest =>
    if all.enum.any (fun p => p.1 != j && altTeacherPairConflict p.2 slotData) then
      Except.error ConflictKind.teacherConflict
    else if all.enum.any (fun p => p.1 != j && altClassPairConflict p.2 slotData) then
      Except.error ConflictKind.classSectionConflict
    else
      let created : TimetableSlot :=
        { id := db.nextId, dayOfWeek := dow, startTime := slotData.startTime,
          endTime := slotData.endTime, currentClass := slotData.currentClass,
          sectionName := slotData.sectionName, subject := slotData.subject,
          teacherId := slotData.teacherId, substituteTeacherId := none, date := some date }
      match altCreateLoop all date dow
          { db with slots := db.slots ++ [created], nextId := db.nextId + 1 } rest with
      | Except.error k => Except.error k
      | Except.ok (tl, db2) => Except.ok (created :: tl, db2)

/-- Embeds setAlternateTimetable (src/controllers/admin.controller.ts).
The date argument is the already-parsed, UTC-normalized target date (the
string-format checks on the raw request are outside the model).  The
handler validates every batch element first, then runs a transaction
that deletes every row whose date equals the target date and re-inserts
the batch, aborting with a 409 on an intra-batch clash; a thrown clash
rolls the transaction back, so the store is unchanged on every failing
path. -/
def setAlternateTimetable (db : DB) (date : Nat) (slotsData : List AlternateSlotPayload) :
    ApiResult :=
  match slotsData.findSome? (validateAltSlot db.teachers) with
  | some msg => ApiResult.validationError msg
  | none =>
    let dayOfWeekForAlternateDate := getDayOfWeekFromDate date
    let norm := slotsData.map normalizeAltSlot
    let afterDelete := { db with slots := db.slots.filter (fun s => s.date != some date) }
    match altCreateLoop norm date dayOfWeekForAlternateDate afterDelete norm.enum with
    | Except.error kind => ApiResult.conflictError kind none
    | Except.ok (created, db2) => ApiResult.ok created db2

/-- Embeds the slot-selection logic of getTimetableForClassSection
(src/controllers/admin.controller.ts): with a query date, the rows bound
to exactly that date for the class/section scope are authoritative when
any exist, else the weekly rows (date null) for the day derived from the
date; without a query date, all weekly rows for the scope.  The
controller then sorts the selected rows (a permutation) and serializes
them; those steps are outside the selection this function embeds. -/
def getTimetableForClassSection (db : DB) (studentClass : String)
    (sectionName : Option String) (dateQ : Option Nat) : List TimetableSlot :=
  match dateQ with
  | some targetDate =>
    let alternateSlots := db.slots.filter (fun s =>
      s.currentClass == studentClass && s.sectionName == sectionName
        && s.date == some targetDate)
    if alternateSlots.length > 0 then
      alternateSlots
    else
      db.slots.filter (fun s =>
        s.currentClass == studentClass && s.sectionName == sectionName
          && s.dayOfWeek == getDayOfWeekFromDate targetDate && s.date == none)
  | none =>
    db.slots.filter (fun s =>
      s.currentClass == studentClass && s.sectionName == sectionName && s.date == none)

/-- Embeds the slot-selection logic of getTeacherTimetable
(src/controllers/teacher.controller.ts).  With a query date: the slots
the teacher substitutes on that date, the teacher's own unsubstituted
slots on that date, and (only to decide the fallback) the slots where
the teacher has been substituted on that date; if any of the three sets
is non-empty the result is substituting plus own, else the weekly
fallback (own unsubstituted weekly slots for the derived day plus weekly
slots substituted by this teacher).  Without a date: unsubstituted
weekly own slots plus weekly substituting slots.  The annotation map
and the final sort are permutation/decoration steps outside the
selection. -/
def getTeacherTimetable (db : DB) (teacherId : Nat) (dateQ : Option Nat) :
    List TimetableSlot :=
  match dateQ with
  | some targetDate =>
    let substitutingDateSlots := db.slots.filter (fun s =>
      s.substituteTeacherId == some teacherId && s.date == some targetDate)
    let ownDateSpecificSlots := db.slots.filter (fun s =>
      s.teacherId == some teacherId && s.date == some targetDate
        && s.substituteTeacherId == none)
    let substitutedDateSlots := db.slots.filter (fun s =>
      s.teacherId == some teacherId && s.date == some targetDate
        && s.substituteTeacherId != none)
    if substitutingDateSlots.length > 0 || ownDateSpecificSlots.length > 0
        || substitutedDateSlots.length > 0 then
      substitutingDateSlots ++ ownDateSpecificSlots
    else
      let targetDayOfWeek := getDayOfWeekFromDate targetDate
      let regularWeeklySlotsForDay := db.slots.filter (fun s =>
        s.teacherId == some teacherId && s.dayOfWeek == targetDayOfWeek
          && s.date == none && s.substituteTeacherId == none)
      let regularSubstitutingSlots := db.slots.filter (fun s =>
        s.substituteTeacherId == some teacherId && s.dayOfWeek == targetDayOfWeek
          && s.date == none)
      regularWeeklySlotsForDay ++ regularSubstitutingSlots
  | none =>
    let regularSlots := db.slots.filter (fun s =>
      s.teacherId == some teacherId && s.date == none && s.substituteTeacherId == none)
    let substitutingSlots := db.slots.filter (fun s =>
      s.substituteTeacherId == some teacherId && s.date == none)
    regularSlots ++ substitutingSlots

/-- Embeds assignSubstituteTeacher (src/controllers/admin.controller.ts):
fetch the slot (404 if absent), check the substitute is a TEACHER (400),
reject self-substitution (400), then scan for an overlapping commitment
of the substitute (as primary or substitute) in the same dayOfWeek and
date scope excluding this slot (409), reject re-assigning the same
substitute (409), and finally update only the substituteTeacherId
column. -/
def assignSubstituteTeacher (db : DB) (timetableSlotId : Nat)
    (substituteTeacherId : Nat) : ApiResult :=
  match db.slots.find? (fun s => s.id == timetableSlotId) with
  | none => ApiResult.notFoundError "Timetable slot not found."
  | some slotToUpdate =>
    if substituteTeacherId ∉ db.teachers then
      ApiResult.validationError "User is not a valid substitute teacher."
    else if slotToUpdate.teacherId = some substituteTeacherId then
      ApiResult.validationError
        "Teacher cannot be assigned as a substitute for their own original slot."
    else
      let substituteConflicts := db.slots.filter (fun s =>
        (s.teacherId == some substituteTeacherId
          || s.substituteTeacherId == some substituteTeacherId)
        && s.dayOfWeek == slotToUpdate.dayOfWeek && s.date == slotToUpdate.date
        && s.id != timetableSlotId)
      match substituteConflicts.find? (fun s =>
          doTimeSlotsOverlap s.startTime s.endTime
            slotToUpdate.startTime slotToUpdate.endTime) with
      | some c => ApiResult.conflictError ConflictKind.substituteConflict (some c)
      | none =>
        if slotToUpdate.substituteTeacherId = some substituteTeacherId then
          ApiResult.conflictError ConflictKind.substituteConflict none
        else
          let newSlots := db.slots.map (fun s =>
            if s.id = timetableSlotId
            then { s with substituteTeacherId := some substituteTeacherId } else s)
          ApiResult.ok (newSlots.filter (fun s => s.id == timetableSlotId))
            { db with slots := newSlots }

/-- Embeds clearSubstituteTeacher (src/controllers/admin.controller.ts):
fetch the slot (404 if absent), then update only the substituteTeacherId
column to null. -/
def clearSubstituteTeacher (db : DB) (timetableSlotId : Nat) : ApiResult :=
  match db.slots.find? (fun s => s.id == timetableSlotId) with
  | none => ApiResult.notFoundError "Timetable slot not found."
  | some _ =>
    let newSlots := db.slots.map (fun s =>
      if s.id = timetableSlotId then { s with substituteTeacherId := none } else s)
    ApiResult.ok (newSlots.filter (fun s => s.id == timetableSlotId))
      { db with slots := newSlots }

/-! Concrete fixtures used by the counterexamples and witnesses. -/

/-- Time 09:00. -/
def t0900 : HM := ⟨9, 0⟩

/-- Time 09:30. -/
def t0930 : HM := ⟨9, 30⟩

/-- Time 10:00. -/
def t1000 : HM := ⟨10, 0⟩

/-- Time 10:30. -/
def t1030 : HM := ⟨10, 30⟩

/-! ## C10 -/

/-- C10: for all time values, doTimeSlotsOverlap returns exactly the test
max (toMinutes aStart) (toMinutes bStart) < min (toMinutes aEnd)
(toMinutes bEnd); it is symmetric in its two interval arguments; and
with half-open semantics an interval ending at a time t never overlaps
one starting at t. -/
theorem C10_overlap_max_min_symmetric_halfopen (aStart aEnd bStart bEnd t : HM) :
    doTimeSlotsOverlap aStart aEnd bStart bEnd =
      decide (max (timeToMinutes aStart) (timeToMinutes bStart)
        < min (timeToMinutes aEnd) (timeToMinutes bEnd))
    ∧ doTimeSlotsOverlap aStart aEnd bStart bEnd = doTimeSlotsOverlap bStart bEnd aStart aEnd
    ∧ doTimeSlotsOverlap aStart t t bEnd = false := by
  refine ⟨rfl, ?_, ?_⟩
  · simp only [doTimeSlotsOverlap, decide_eq_decide]
    omega
  · simp only [doTimeSlotsOverlap, decide_eq_false_iff_not]
    omega

/-! ## C1 -/

/-- A date-bound Monday slot (epoch day 4 = 1970-01-05, a Monday). -/
def C1slot : TimetableSlot :=
  { id := 1, dayOfWeek := DayOfWeek.MONDAY, startTime := t0900, endTime := t1000,
    currentClass := "10", sectionName := none, subject := "Maths",
    teacherId := none, substituteTeacherId := none, date := some 4 }

/-- Store holding only the date-bound slot C1slot. -/
def C1db : DB := { slots := [C1slot], teachers := [], nextId := 2 }

/-- A weekly (date = null) candidate overlapping C1slot in the same
class/section/day scope. -/
def C1payload : TimetableSlotPayload :=
  { id := none, dayOfWeek := DayOfWeek.MONDAY, startTime := t0930, endTime := t1030,
    currentClass := "10", sectionName := none, subject := "Physics",
    teacherId := none, date := none }

/-- C1 is false on the code: a valid weekly candidate whose interval
overlaps only a date-bound slot in the same (class, section, dayOfWeek)
scope does not succeed; createOrUpdateTimetableSlot reports a
class/section ConflictError, because its conflict queries carry no date
filter. -/
theorem C1_counterexample :
    (createOrUpdateTimetableSlot C1db C1payload).isOk = false ∧
    createOrUpdateTimetableSlot C1db C1payload
      = ApiResult.conflictError ConflictKind.classSectionConflict (some C1slot) :=
  ⟨rfl, rfl⟩

/-- C1 (amended): the conflict detection of createOrUpdateTimetableSlot
does not restrict to slots with the same date value; it compares the
candidate against every persisted slot in the same (class, section,
dayOfWeek) scope regardless of date, so any candidate (weekly or
date-bound) that passes validation and overlaps any such slot — in
particular a weekly candidate overlapping only date-bound slots — is
rejected with a ConflictError. -/
theorem C1_upsert_conflict_ignores_date_scope (db : DB) (p : TimetableSlotPayload)
    (s : TimetableSlot)
    (hv : upsertValidation db p = none)
    (hmem : s ∈ db.slots)
    (hcls : s.currentClass = p.currentClass)
    (hsec : s.sectionName = normalizeSection p.sectionName)
    (hday : s.dayOfWeek = p.dayOfWeek)
    (hex : slotExcluded p.id s = true)
    (hov : doTimeSlotsOverlap s.startTime s.endTime p.startTime p.endTime = true) :
    ∃ k c, createOrUpdateTimetableSlot db p = ApiResult.conflictError k c := by
  have hres : createOrUpdateTimetableSlot db p =
      (match (match p.teacherId with
              | some t => findTeacherConflict db t p.dayOfWeek p.id p.startTime p.endTime
              | none => none) with
       | some c => ApiResult.conflictError ConflictKind.teacherConflict (some c)
       | none =>
         match findClassConflict db p.currentClass (normalizeSection p.sectionName)
             p.dayOfWeek p.id p.startTime p.endTime with
         | some c => ApiResult.conflictError ConflictKind.classSectionConflict (some c)
         | none => upsertWrite db p (normalizeSection p.sectionName)) := by
    unfold createOrUpdateTimetableSlot
    rw [hv]
  cases htc : (match p.teacherId with
              | some t => findTeacherConflict db t p.dayOfWeek p.id p.startTime p.endTime
              | none => none) with
  | some c =>
    rw [htc] at hres
    exact ⟨_, _, hres⟩
  | none =>
    rw [htc] at hres
    cases hcc : findClassConflict db p.currentClass (normalizeSection p.sectionName)
        p.dayOfWeek p.id p.startTime p.endTime with
    | some c =>
      rw [hcc] at hres
      exact ⟨_, _, hres⟩
    | none =>
      exfalso
      unfold findClassConflict at hcc
      rw [List.find?_eq_none] at hcc
      refine hcc s ?_ hov
      rw [List.mem_filter]
      refine ⟨hmem, ?_⟩
      simp [hcls, hsec, hday, hex]

/-- Witness for C1_upsert_conflict_ignores_date_scope at the concrete
fixture: every hypothesis holds there and the call reports a conflict. -/
theorem C1_witness :
    upsertValidation C1db C1payload = none
    ∧ C1slot ∈ C1db.slots
    ∧ C1slot.currentClass = C1payload.currentClass
    ∧ C1slot.sectionName = normalizeSection C1payload.sectionName
    ∧ C1slot.dayOfWeek = C1payload.dayOfWeek
    ∧ slotExcluded C1payload.id C1slot = true
    ∧ doTimeSlotsOverlap C1slot.startTime C1slot.endTime
        C1payload.startTime C1payload.endTime = true
    ∧ ∃ k c, createOrUpdateTimetableSlot C1db C1payload = ApiResult.conflictError k c :=
  ⟨rfl, by decide, rfl, rfl, rfl, rfl, rfl,
    C1_upsert_conflict_ignores_date_scope C1db C1payload C1slot rfl (by decide)
      rfl rfl rfl rfl rfl⟩

/-- Helper: the persistence step never reports a conflict. -/
theorem upsertWrite_not_conflict (db : DB) (p : TimetableSlotPayload)
    (sec : Option String) (k : ConflictKind) :
    (upsertWrite db p sec).isConflict k = false := by
  unfold upsertWrite
  cases p.id with
  | none => rfl
  | some i =>
    by_cases h : (db.slots.any fun s => s.id == i) = true <;>
      simp [h, ApiResult.isConflict]

/-! ## C2 -/

/-- A weekly Monday slot taught by teacher 2 with teacher 1 assigned as
its substitute. -/
def C2slot : TimetableSlot :=
  { id := 1, dayOfWeek := DayOfWeek.MONDAY, startTime := t0900, endTime := t1000,
    currentClass := "10", sectionName := none, subject := "Maths",
    teacherId := some 2, substituteTeacherId := some 1, date := none }

/-- Store holding C2slot; users 1 and 2 are teachers. -/
def C2db : DB := { slots := [C2slot], teachers := [1, 2], nextId := 2 }

/-- An overlapping candidate for a different class assigning teacher 1
(substitute of C2slot) as primary teacher. -/
def C2payload : TimetableSlotPayload :=
  { id := none, dayOfWeek := DayOfWeek.MONDAY, startTime := t0930, endTime := t1030,
    currentClass := "9", sectionName := none, subject := "Chemistry",
    teacherId := some 1, date := none }

/-- C2 is false on the code: creating a new overlapping slot that assigns
as primary a teacher who is only the substitute of an existing slot does
not yield a teacher ConflictError — the call succeeds, because the
teacher-conflict query matches the teacherId column only. -/
theorem C2_counterexample :
    (createOrUpdateTimetableSlot C2db C2payload).isConflict
      ConflictKind.teacherConflict = false
    ∧ (createOrUpdateTimetableSlot C2db C2payload).isOk = true :=
  ⟨rfl, rfl⟩

/-- C2 (amended): the teacher-conflict check of createOrUpdateTimetableSlot
considers only slots where the teacher is the primary teacher (in the
same dayOfWeek, with no date restriction); slots where the teacher is
merely the substitute are never reported as a teacher conflict, so if no
primary-teacher slot of the candidate teacher overlaps, no teacher
ConflictError is raised regardless of overlapping substitute
assignments. -/
theorem C2_teacher_check_primary_only (db : DB) (p : TimetableSlotPayload) (t : Nat)
    (hv : upsertValidation db p = none)
    (ht : p.teacherId = some t)
    (hnoprim : ∀ s ∈ db.slots, s.teacherId = some t → s.dayOfWeek = p.dayOfWeek →
        slotExcluded p.id s = true →
        doTimeSlotsOverlap s.startTime s.endTime p.startTime p.endTime = false) :
    (createOrUpdateTimetableSlot db p).isConflict ConflictKind.teacherConflict = false := by
  have htc : findTeacherConflict db t p.dayOfWeek p.id p.startTime p.endTime = none := by
    unfold findTeacherConflict
    rw [List.find?_eq_none]
    intro x hx
    rw [List.mem_filter] at hx
    obtain ⟨hxs, hpred⟩ := hx
    simp only [Bool.and_eq_true, beq_iff_eq] at hpred
    obtain ⟨⟨hteq, hdeq⟩, hexc⟩ := hpred
    simp [hnoprim x hxs hteq hdeq hexc]
  have hmatch : (match p.teacherId with
                 | some t2 => findTeacherConflict db t2 p.dayOfWeek p.id p.startTime p.endTime
                 | none => none) = none := by
    rw [ht]; exact htc
  have hres : createOrUpdateTimetableSlot db p =
      (match (match p.teacherId with
              | some t2 => findTeacherConflict db t2 p.dayOfWeek p.id p.startTime p.endTime
              | none => none) with
       | some c => ApiResult.conflictError ConflictKind.teacherConflict (some c)
       | none =>
         match findClassConflict db p.currentClass (normalizeSection p.sectionName)
             p.dayOfWeek p.id p.startTime p.endTime with
         | some c => ApiResult.conflictError ConflictKind.classSectionConflict (some c)
         | none => upsertWrite db p (normalizeSection p.sectionName)) := by
    unfold createOrUpdateTimetableSlot
    rw [hv]
  rw [hmatch] at hres
  cases hcc : findClassConflict db p.currentClass (normalizeSection p.sectionName)
      p.dayOfWeek p.id p.startTime p.endTime with
  | some c =>
    rw [hcc] at hres
    rw [hres]
    rfl
  | none =>
    rw [hcc] at hres
    rw [hres]
    exact upsertWrite_not_conflict db p (normalizeSection p.sectionName)
      ConflictKind.teacherConflict

/-- Witness for C2_teacher_check_primary_only at the concrete fixture:
the store holds an overlapping slot where teacher 1 is only the
substitute, yet no teacher conflict is reported. -/
theorem C2_witness :
    upsertValidation C2db C2payload = none
    ∧ C2payload.teacherId = some 1
    ∧ (∀ s ∈ C2db.slots, s.teacherId = some 1 → s.dayOfWeek = C2payload.dayOfWeek →
        slotExcluded C2payload.id s = true →
        doTimeSlotsOverlap s.startTime s.endTime C2payload.startTime
          C2payload.endTime = false)
    ∧ (createOrUpdateTimetableSlot C2db C2payload).isConflict
        ConflictKind.teacherConflict = false :=
  ⟨rfl, rfl, by decide,
    C2_teacher_check_primary_only C2db C2payload 1 rfl rfl (by decide)⟩

/-! ## C3 -/

/-- A weekly Monday slot of class 10 taught by teacher 2. -/
def C3slotA : TimetableSlot :=
  { id := 1, dayOfWeek := DayOfWeek.MONDAY, startTime := t0900, endTime := t1000,
    currentClass := "10", sectionName := none, subject := "Maths",
    teacherId := some 2, substituteTeacherId := none, date := none }

/-- A weekly Monday slot of class 9 taught by teacher 1. -/
def C3slotB : TimetableSlot :=
  { id := 2, dayOfWeek := DayOfWeek.MONDAY, startTime := t0900, endTime := t1000,
    currentClass := "9", sectionName := none, subject := "Biology",
    teacherId := some 1, substituteTeacherId := none, date := none }

/-- Store holding C3slotA and C3slotB; users 1 and 2 are teachers. -/
def C3db : DB := { slots := [C3slotA, C3slotB], teachers := [1, 2], nextId := 3 }

/-- A candidate that conflicts with C3slotA on class/section and with
C3slotB on teacher. -/
def C3payload : TimetableSlotPayload :=
  { id := none, dayOfWeek := DayOfWeek.MONDAY, startTime := t0930, endTime := t1030,
    currentClass := "10", sectionName := none, subject := "Physics",
    teacherId := some 1, date := none }

/-- C3 is false on the code: on a candidate with both a class/section
conflict and a teacher conflict, the reported ConflictError names the
teacher conflict, not the class/section conflict — the teacher check
runs first. -/
theorem C3_counterexample :
    (createOrUpdateTimetableSlot C3db C3payload).isConflict
      ConflictKind.classSectionConflict = false
    ∧ createOrUpdateTimetableSlot C3db C3payload
        = ApiResult.conflictError ConflictKind.teacherConflict (some C3slotB) :=
  ⟨rfl, rfl⟩

/-- C3 (amended): in createOrUpdateTimetableSlot the teacher-conflict
check runs first; whenever it finds an overlap, the returned
ConflictError names the teacher conflict — deterministically so even
when the class/section check would also fail (which then never runs). -/
theorem C3_teacher_conflict_checked_first (db : DB) (p : TimetableSlotPayload)
    (t : Nat) (c c2 : TimetableSlot)
    (hv : upsertValidation db p = none)
    (ht : p.teacherId = some t)
    (htc : findTeacherConflict db t p.dayOfWeek p.id p.startTime p.endTime = some c)
    (_hcc : findClassConflict db p.currentClass (normalizeSection p.sectionName)
        p.dayOfWeek p.id p.startTime p.endTime = some c2) :
    createOrUpdateTimetableSlot db p
      = ApiResult.conflictError ConflictKind.teacherConflict (some c) := by
  have hmatch : (match p.teacherId with
                 | some t2 => findTeacherConflict db t2 p.dayOfWeek p.id p.startTime p.endTime
                 | none => none) = some c := by
    rw [ht]; exact htc
  have hres : createOrUpdateTimetableSlot db p =
      (match (match p.teacherId with
              | some t2 => findTeacherConflict db t2 p.dayOfWeek p.id p.startTime p.endTime
              | none => none) with
       | some c => ApiResult.conflictError ConflictKind.teacherConflict (some c)
       | none =>
         match findClassConflict db p.currentClass (normalizeSection p.sectionName)
             p.dayOfWeek p.id p.startTime p.endTime with
         | some c => ApiResult.conflictError ConflictKind.classSectionConflict (some c)
         | none => upsertWrite db p (normalizeSection p.sectionName)) := by
    unfold createOrUpdateTimetableSlot
    rw [hv]
  rw [hmatch] at hres
  exact hres

/-- Witness for C3_teacher_conflict_checked_first at the concrete
fixture where both conflicts exist. -/
theorem C3_witness :
    upsertValidation C3db C3payload = none
    ∧ C3payload.teacherId = some 1
    ∧ findTeacherConflict C3db 1 C3payload.dayOfWeek C3payload.id
        C3payload.startTime C3payload.endTime = some C3slotB
    ∧ findClassConflict C3db C3payload.currentClass
        (normalizeSection C3payload.sectionName) C3payload.dayOfWeek C3payload.id
        C3payload.startTime C3payload.endTime = some C3slotA
    ∧ createOrUpdateTimetableSlot C3db C3payload
        = ApiResult.conflictError ConflictKind.teacherConflict (some C3slotB) :=
  ⟨rfl, rfl, rfl, rfl,
    C3_teacher_conflict_checked_first C3db C3payload 1 C3slotB C3slotA rfl rfl rfl rfl⟩

/-! ## C9 -/

/-- C9: whenever the slot exists and the requested substitute equals the
slots own primary teacher, assignSubstituteTeacher answers a
ValidationError — for every store content, hence regardless of the
substitutes schedule availability and never reaching the conflict
check — and the store is unchanged. -/
theorem C9_self_substitution_always_rejected (db : DB) (slotId T : Nat)
    (s : TimetableSlot)
    (hfind : db.slots.find? (fun x => x.id == slotId) = some s)
    (hself : s.teacherId = some T) :
    (∃ msg, assignSubstituteTeacher db slotId T = ApiResult.validationError msg)
    ∧ dbAfter db (assignSubstituteTeacher db slotId T) = db := by
  have hres : ∃ msg, assignSubstituteTeacher db slotId T
      = ApiResult.validationError msg := by
    simp only [assignSubstituteTeacher, hfind]
    by_cases hT : T ∈ db.teachers
    · rw [if_neg (not_not_intro hT), if_pos hself]
      exact ⟨_, rfl⟩
    · rw [if_pos hT]
      exact ⟨_, rfl⟩
  obtain ⟨msg, hmsg⟩ := hres
  refine ⟨⟨msg, hmsg⟩, ?_⟩
  rw [hmsg]
  rfl

/-- A weekly Monday slot taught by teacher 7. -/
def C9slot : TimetableSlot :=
  { id := 1, dayOfWeek := DayOfWeek.MONDAY, startTime := t0900, endTime := t1000,
    currentClass := "10", sectionName := none, subject := "Maths",
    teacherId := some 7, substituteTeacherId := none, date := none }

/-- Another overlapping Monday commitment of teacher 7, so the substitute
is in fact unavailable at that time. -/
def C9busy : TimetableSlot :=
  { id := 2, dayOfWeek := DayOfWeek.MONDAY, startTime := t0930, endTime := t1030,
    currentClass := "9", sectionName := none, subject := "Biology",
    teacherId := some 7, substituteTeacherId := none, date := none }

/-- Store for the C9 witness. -/
def C9db : DB := { slots := [C9slot, C9busy], teachers := [7], nextId := 3 }

/-- Witness for C9_self_substitution_always_rejected: assigning teacher 7
as substitute of their own slot is rejected with a ValidationError even
though an overlap also exists. -/
theorem C9_witness :
    C9db.slots.find? (fun x => x.id == 1) = some C9slot
    ∧ C9slot.teacherId = some 7
    ∧ ((∃ msg, assignSubstituteTeacher C9db 1 7 = ApiResult.validationError msg)
        ∧ dbAfter C9db (assignSubstituteTeacher C9db 1 7) = C9db) :=
  ⟨rfl, rfl, C9_self_substitution_always_rejected C9db 1 7 C9slot rfl rfl⟩

/-! ## C8 -/

/-- Claim-side frame relation: new agrees with old on every column
except substituteTeacherId, which holds v. -/
def onlySubstituteChanged (old new : TimetableSlot) (v : Option Nat) : Prop :=
  new.id = old.id ∧ new.dayOfWeek = old.dayOfWeek ∧ new.startTime = old.startTime
    ∧ new.endTime = old.endTime ∧ new.currentClass = old.currentClass
    ∧ new.sectionName = old.sectionName ∧ new.subject = old.subject
    ∧ new.teacherId = old.teacherId ∧ new.date = old.date
    ∧ new.substituteTeacherId = v

/-- C8: a successful assignSubstituteTeacher rewrites, row for row, only
the target slots substituteTeacherId column (to the substitute), leaving
teacherId and every other column of every row unchanged; a successful
clearSubstituteTeacher does the same setting substituteTeacherId to
null. -/
theorem C8_substitute_update_frame (db : DB) (slotId T2 : Nat) :
    (∀ rows db2, assignSubstituteTeacher db slotId T2 = ApiResult.ok rows db2 →
      List.Forall₂ (fun old new =>
        if old.id = slotId then onlySubstituteChanged old new (some T2) else new = old)
        db.slots db2.slots)
    ∧ (∀ rows db2, clearSubstituteTeacher db slotId = ApiResult.ok rows db2 →
      List.Forall₂ (fun old new =>
        if old.id = slotId then onlySubstituteChanged old new none else new = old)
        db.slots db2.slots) := by
  constructor
  · intro rows db2 h
    unfold assignSubstituteTeacher at h
    cases hfind : db.slots.find? (fun x => x.id == slotId) with
    | none =>
      rw [hfind] at h
      exact ApiResult.noConfusion h
    | some s =>
      simp only [hfind] at h
      split at h
      · exact ApiResult.noConfusion h
      · split at h
        · exact ApiResult.noConfusion h
        · split at h
          · exact ApiResult.noConfusion h
          · split at h
            · exact ApiResult.noConfusion h
            · obtain ⟨-, hdb⟩ := ApiResult.ok.inj h
              rw [← hdb]
              rw [List.forall₂_map_right_iff, List.forall₂_same]
              intro x _
              by_cases hid : x.id = slotId
              · simp [hid, onlySubstituteChanged]
              · simp [hid]
  · intro rows db2 h
    unfold clearSubstituteTeacher at h
    cases hfind : db.slots.find? (fun x => x.id == slotId) with
    | none =>
      rw [hfind] at h
      exact ApiResult.noConfusion h
    | some s =>
      simp only [hfind] at h
      obtain ⟨-, hdb⟩ := ApiResult.ok.inj h
      rw [← hdb]
      rw [List.forall₂_map_right_iff, List.forall₂_same]
      intro x _
      by_cases hid : x.id = slotId
      · simp [hid, onlySubstituteChanged]
      · simp [hid]

/-- A weekly Monday slot taught by teacher 1 with no substitute. -/
def C8slot : TimetableSlot :=
  { id := 1, dayOfWeek := DayOfWeek.MONDAY, startTime := t0900, endTime := t1000,
    currentClass := "10", sectionName := some "A", subject := "Maths",
    teacherId := some 1, substituteTeacherId := none, date := none }

/-- Store for the C8 witness; users 1 and 2 are teachers. -/
def C8db : DB := { slots := [C8slot], teachers := [1, 2], nextId := 2 }

/-- C8slot after teacher 2 was assigned as its substitute. -/
def C8slotAfter : TimetableSlot := { C8slot with substituteTeacherId := some 2 }

/-- The store after the successful assignment. -/
def C8dbAssigned : DB := { C8db with slots := [C8slotAfter] }

/-- Witness for C8_substitute_update_frame: assigning substitute 2 to
C8slot succeeds and satisfies the frame relation, as does clearing it
again. -/
theorem C8_witness :
    assignSubstituteTeacher C8db 1 2 = ApiResult.ok [C8slotAfter] C8dbAssigned
    ∧ List.Forall₂ (fun old new =>
        if old.id = 1 then onlySubstituteChanged old new (some 2) else new = old)
        C8db.slots C8dbAssigned.slots
    ∧ clearSubstituteTeacher C8dbAssigned 1
        = ApiResult.ok [C8slot] { C8dbAssigned with slots := [C8slot] }
    ∧ List.Forall₂ (fun old new =>
        if old.id = 1 then onlySubstituteChanged old new none else new = old)
        C8dbAssigned.slots [C8slot] :=
  ⟨rfl,
    (C8_substitute_update_frame C8db 1 2).1 [C8slotAfter] C8dbAssigned rfl,
    rfl,
    (C8_substitute_update_frame C8dbAssigned 1 2).2 [C8slot]
      { C8dbAssigned with slots := [C8slot] } rfl⟩

/-! ## C5 -/

/-- C5: for a class/section scope and target date, the effective-schedule
selection returns exactly the stored slots bound to that date when at
least one exists, and otherwise exactly the weekly (date = null) slots
of the scope whose dayOfWeek is derived from the date — so date-bound
and weekly slots are never mixed; without a target date it returns
exactly the weekly slots of the scope. -/
theorem C5_effective_schedule_class_section (db : DB) (cls : String)
    (sec : Option String) (d : Nat) (s : TimetableSlot) :
    (s ∈ getTimetableForClassSection db cls sec (some d) ↔
      (s ∈ db.slots ∧ s.currentClass = cls ∧ s.sectionName = sec ∧
        (if ∃ x ∈ db.slots, x.currentClass = cls ∧ x.sectionName = sec ∧ x.date = some d
         then s.date = some d
         else s.dayOfWeek = getDayOfWeekFromDate d ∧ s.date = none)))
    ∧ (s ∈ getTimetableForClassSection db cls sec none ↔
      (s ∈ db.slots ∧ s.currentClass = cls ∧ s.sectionName = sec ∧ s.date = none)) := by
  have hlen : 0 < (db.slots.filter (fun x =>
        x.currentClass == cls && x.sectionName == sec && x.date == some d)).length ↔
      ∃ x ∈ db.slots, x.currentClass = cls ∧ x.sectionName = sec ∧ x.date = some d := by
    rw [List.length_pos_iff_exists_mem]
    simp [List.mem_filter, and_assoc]
  constructor
  · simp only [getTimetableForClassSection]
    by_cases hex : ∃ x ∈ db.slots,
        x.currentClass = cls ∧ x.sectionName = sec ∧ x.date = some d
    · rw [if_pos (hlen.mpr hex), if_pos hex]
      simp [List.mem_filter, and_assoc]
    · rw [if_neg (fun h => hex (hlen.mp h)), if_neg hex]
      simp [List.mem_filter, and_assoc]
  · simp only [getTimetableForClassSection]
    simp [List.mem_filter, and_assoc]

/-! ## C6 -/

/-- C6: a teachers effective schedule includes every slot of the queried
date on which they are the substitute, and excludes every slot where
they are the primary teacher but some other teacher is the substitute —
for any query scope; so the substitute sees such a slot on its date and
the substituted original teacher does not. -/
theorem C6_teacher_schedule_substitute_visibility (db : DB) (T d : Nat)
    (S : TimetableSlot) (q : Option Nat) :
    (S ∈ db.slots → S.substituteTeacherId = some T → S.date = some d →
      S ∈ getTeacherTimetable db T (some d))
    ∧ (S.teacherId = some T → (∃ T2, S.substituteTeacherId = some T2 ∧ T2 ≠ T) →
      S ∉ getTeacherTimetable db T q) := by
  constructor
  · intro hmem hsub hdate
    have hm : S ∈ db.slots.filter (fun x =>
        x.substituteTeacherId == some T && x.date == some d) := by
      rw [List.mem_filter]
      exact ⟨hmem, by simp [hsub, hdate]⟩
    have hlen : 0 < (db.slots.filter (fun x =>
        x.substituteTeacherId == some T && x.date == some d)).length :=
      List.length_pos_iff_exists_mem.mpr ⟨S, hm⟩
    simp only [getTeacherTimetable]
    rw [if_pos (by simp [hlen])]
    exact List.mem_append.mpr (Or.inl hm)
  · rintro hT ⟨T2, hT2, hne⟩ hmem
    simp only [getTeacherTimetable] at hmem
    split at hmem
    · split at hmem
      · rcases List.mem_append.mp hmem with h | h
        · rw [List.mem_filter] at h
          simp [hT2, hne] at h
        · rw [List.mem_filter] at h
          simp [hT2, hne] at h
      · rcases List.mem_append.mp hmem with h | h
        · rw [List.mem_filter] at h
          simp [hT2, hne] at h
        · rw [List.mem_filter] at h
          simp [hT2, hne] at h
    · rcases List.mem_append.mp hmem with h | h
      · rw [List.mem_filter] at h
        simp [hT2, hne] at h
      · rw [List.mem_filter] at h
        simp [hT2, hne] at h

/-- A date-bound Tuesday slot (epoch day 5 = 1970-01-06, a Tuesday)
taught by teacher 1 with teacher 2 assigned as substitute. -/
def C6slot : TimetableSlot :=
  { id := 1, dayOfWeek := DayOfWeek.TUESDAY, startTime := t0900, endTime := t1000,
    currentClass := "10", sectionName := none, subject := "Maths",
    teacherId := some 1, substituteTeacherId := some 2, date := some 5 }

/-- Store for the C6 witness. -/
def C6db : DB := { slots := [C6slot], teachers := [1, 2], nextId := 2 }

/-- Witness for C6_teacher_schedule_substitute_visibility: on the slots
date, substitute teacher 2 sees C6slot and the substituted original
teacher 1 does not. -/
theorem C6_witness :
    C6slot ∈ C6db.slots
    ∧ C6slot.substituteTeacherId = some 2
    ∧ C6slot.date = some 5
    ∧ C6slot ∈ getTeacherTimetable C6db 2 (some 5)
    ∧ C6slot.teacherId = some 1
    ∧ (∃ T2, C6slot.substituteTeacherId = some T2 ∧ T2 ≠ 1)
    ∧ C6slot ∉ getTeacherTimetable C6db 1 (some 5) :=
  ⟨by decide, rfl, rfl,
    (C6_teacher_schedule_substitute_visibility C6db 2 5 C6slot (some 5)).1
      (by decide) rfl rfl,
    rfl, ⟨2, rfl, by decide⟩,
    (C6_teacher_schedule_substitute_visibility C6db 1 5 C6slot (some 5)).2
      rfl ⟨2, rfl, by decide⟩⟩

/-! ## C7 -/

/-- Helper: every row the alternate-timetable create loop inserts (and
returns) carries the batch-derived dayOfWeek and the target date. -/
theorem altCreateLoop_created_fields (all : List AlternateSlotPayload) (date : Nat)
    (dow : DayOfWeek) (l : List (Nat × AlternateSlotPayload)) :
    ∀ (db : DB) (rows : List TimetableSlot) (db2 : DB),
      altCreateLoop all date dow db l = Except.ok (rows, db2) →
      ∀ s ∈ rows, s.dayOfWeek = dow ∧ s.date = some date := by
  induction l with
  | nil =>
    intro db rows db2 h s hs
    obtain ⟨hrows, -⟩ := Prod.mk.injEq .. ▸ Except.ok.inj h
    rw [← hrows] at hs
    exact absurd hs (List.not_mem_nil s)
  | cons hd tl ih =>
    intro db rows db2 h s hs
    unfold altCreateLoop at h
    split at h
    · exact Except.noConfusion h
    · split at h
      · exact Except.noConfusion h
      · dsimp only at h
        split at h
        · exact Except.noConfusion h
        · rename_i tl2 db3 heq
          obtain ⟨hrows, -⟩ := Prod.mk.injEq .. ▸ Except.ok.inj h
          rw [← hrows] at hs
          rcases List.mem_cons.mp hs with hs1 | hs1
          · rw [hs1]
            exact ⟨rfl, rfl⟩
          · exact ih _ tl2 db3 heq s hs1

/-- A store with no slots and no teachers. -/
def C7db : DB := { slots := [], teachers := [], nextId := 0 }

/-- A date-bound candidate for the Slot Scheduler whose caller-supplied
dayOfWeek (MONDAY) disagrees with the day derived from its date (epoch
day 5 = 1970-01-06, a TUESDAY). -/
def C7payload : TimetableSlotPayload :=
  { id := none, dayOfWeek := DayOfWeek.MONDAY, startTime := t0900, endTime := t1000,
    currentClass := "10", sectionName := none, subject := "Maths",
    teacherId := none, date := some 5 }

/-- C7 is false on the code: createOrUpdateTimetableSlot persists a slot
with date = epoch day 5 (a Tuesday) while storing the caller-supplied
dayOfWeek MONDAY, so a date-bound slot whose stored dayOfWeek differs
from the day derived from its date exists after the call. -/
theorem C7_counterexample :
    (dbAfter C7db (createOrUpdateTimetableSlot C7db C7payload)).slots.any
      (fun s => s.date == some 5 && s.dayOfWeek != getDayOfWeekFromDate 5) = true :=
  rfl

/-- C7 (amended): only the Alternate-Day Scheduler derives dayOfWeek from
the target date — every row it persists carries the derived day and the
target date; the Slot Scheduler instead stores the caller-supplied
dayOfWeek as-is together with the payload date, even when that date is
non-null. -/
theorem C7_dayOfWeek_derivation (db : DB) (date : Nat)
    (sd : List AlternateSlotPayload) (p : TimetableSlotPayload) :
    (∀ rows db2, setAlternateTimetable db date sd = ApiResult.ok rows db2 →
      ∀ s ∈ rows, s.dayOfWeek = getDayOfWeekFromDate date ∧ s.date = some date)
    ∧ (∀ rows db2, createOrUpdateTimetableSlot db p = ApiResult.ok rows db2 →
      ∀ s ∈ rows, s.dayOfWeek = p.dayOfWeek ∧ s.date = p.date) := by
  constructor
  · intro rows db2 h
    unfold setAlternateTimetable at h
    split at h
    · exact ApiResult.noConfusion h
    · dsimp only at h
      split at h
      · exact ApiResult.noConfusion h
      · rename_i created db3 heq
        obtain ⟨hrows, -⟩ := ApiResult.ok.inj h
        rw [← hrows]
        exact altCreateLoop_created_fields _ date _ _ _ created db3 heq
  · intro rows db2 h
    unfold createOrUpdateTimetableSlot at h
    split at h
    · exact ApiResult.noConfusion h
    · split at h
      · exact ApiResult.noConfusion h
      · dsimp only at h
        split at h
        · exact ApiResult.noConfusion h
        · unfold upsertWrite at h
          split at h
          · split at h
            · obtain ⟨hrows, -⟩ := ApiResult.ok.inj h
              rw [← hrows]
              intro s hs
              rw [List.mem_filter] at hs
              obtain ⟨hsm, hsid⟩ := hs
              rw [List.mem_map] at hsm
              obtain ⟨x, hx, hfx⟩ := hsm
              rename_i i hpid hany
              by_cases hxi : x.id = i
              · rw [if_pos hxi] at hfx
                rw [← hfx]
                exact ⟨rfl, rfl⟩
              · rw [if_neg hxi] at hfx
                rw [← hfx] at hsid
                exact absurd (by simpa using hsid) hxi
            · exact ApiResult.noConfusion h
          · obtain ⟨hrows, -⟩ := ApiResult.ok.inj h
            rw [← hrows]
            intro s hs
            rw [List.mem_singleton] at hs
            rw [hs]
            exact ⟨rfl, rfl⟩

/-- A batch element for the C7 witness. -/
def C7altPayload : AlternateSlotPayload :=
  { startTime := t0900, endTime := t1000, currentClass := "10",
    sectionName := none, subject := "Maths", teacherId := none }

/-- The row the Alternate-Day Scheduler creates from C7altPayload for
epoch day 5: its dayOfWeek is the derived TUESDAY. -/
def C7created : TimetableSlot :=
  { id := 0, dayOfWeek := DayOfWeek.TUESDAY, startTime := t0900, endTime := t1000,
    currentClass := "10", sectionName := none, subject := "Maths",
    teacherId := none, substituteTeacherId := none, date := some 5 }

/-- The row the Slot Scheduler creates from C7payload: its dayOfWeek is
the caller-supplied MONDAY although its date is a Tuesday. -/
def C7upserted : TimetableSlot :=
  { id := 0, dayOfWeek := DayOfWeek.MONDAY, startTime := t0900, endTime := t1000,
    currentClass := "10", sectionName := none, subject := "Maths",
    teacherId := none, substituteTeacherId := none, date := some 5 }

/-- Witness for C7_dayOfWeek_derivation: a concrete successful alternate
call and a concrete successful upsert, with the concluded field facts. -/
theorem C7_witness :
    setAlternateTimetable C7db 5 [C7altPayload]
      = ApiResult.ok [C7created] { slots := [C7created], teachers := [], nextId := 1 }
    ∧ (∀ s ∈ [C7created], s.dayOfWeek = getDayOfWeekFromDate 5 ∧ s.date = some 5)
    ∧ createOrUpdateTimetableSlot C7db C7payload
      = ApiResult.ok [C7upserted] { slots := [C7upserted], teachers := [], nextId := 1 }
    ∧ (∀ s ∈ [C7upserted], s.dayOfWeek = C7payload.dayOfWeek ∧ s.date = C7payload.date) :=
  ⟨rfl,
    (C7_dayOfWeek_derivation C7db 5 [C7altPayload] C7payload).1 [C7created]
      { slots := [C7created], teachers := [], nextId := 1 } rfl,
    rfl,
    (C7_dayOfWeek_derivation C7db 5 [C7altPayload] C7payload).2 [C7upserted]
      { slots := [C7upserted], teachers := [], nextId := 1 } rfl⟩

/-! ## C4 -/

/-- Claim-side relation between a submitted batch element and a persisted
row for target date: every column comes from the element (section
normalized), the row is date-bound to the target date, and without a
substitute. -/
def matchesAltPayload (date : Nat) (p : AlternateSlotPayload) (s : TimetableSlot) : Prop :=
  s.startTime = p.startTime ∧ s.endTime = p.endTime ∧ s.currentClass = p.currentClass
    ∧ s.sectionName = normalizeSection p.sectionName ∧ s.subject = p.subject
    ∧ s.teacherId = p.teacherId ∧ s.substituteTeacherId = none ∧ s.date = some date

/-- Same relation for an already-normalized batch element. -/
def matchesNormPayload (date : Nat) (p : AlternateSlotPayload) (s : TimetableSlot) : Prop :=
  s.startTime = p.startTime ∧ s.endTime = p.endTime ∧ s.currentClass = p.currentClass
    ∧ s.sectionName = p.sectionName ∧ s.subject = p.subject
    ∧ s.teacherId = p.teacherId ∧ s.substituteTeacherId = none ∧ s.date = some date

/-- Claim-side intra-batch conflict: two distinct positions of the batch
clash on teacher (both carry the same non-null teacher and overlap) or on
class/section (same class, same normalized section, overlap). -/
def intraBatchConflict (l : List AlternateSlotPayload) : Prop :=
  ∃ p q, p ∈ l.enum ∧ q ∈ l.enum ∧ p.1 ≠ q.1 ∧
    (altTeacherPairConflict p.2 q.2 = true ∨ altClassPairConflict p.2 q.2 = true)

/-- Helper: when the create loop of setAlternateTimetable succeeds, no
batch element still to insert clashes with any other batch position. -/
theorem altCreateLoop_ok_no_conflict (all : List AlternateSlotPayload) (date : Nat)
    (dow : DayOfWeek) (l : List (Nat × AlternateSlotPayload)) :
    ∀ (db : DB) (rows : List TimetableSlot) (db2 : DB),
      altCreateLoop all date dow db l = Except.ok (rows, db2) →
      ∀ q ∈ l, ∀ p ∈ all.enum, p.1 ≠ q.1 →
        altTeacherPairConflict p.2 q.2 = false ∧ altClassPairConflict p.2 q.2 = false := by
  induction l with
  | nil =>
    intro db rows db2 h q hq
    exact absurd hq (List.not_mem_nil q)
  | cons hd tl ih =>
    intro db rows db2 h q hq p hp hne
    unfold altCreateLoop at h
    split at h
    · exact Except.noConfusion h
    · split at h
      · exact Except.noConfusion h
      · rename_i hta hca
        dsimp only at h
        split at h
        · exact Except.noConfusion h
        · rename_i tl2 db3 heq
          rcases List.mem_cons.mp hq with rfl | hq2
          · constructor
            · by_contra hcf
              rw [Bool.not_eq_false] at hcf
              apply hta
              rw [List.any_eq_true]
              exact ⟨p, hp, by simp [hne, hcf]⟩
            · by_contra hcf
              rw [Bool.not_eq_false] at hcf
              apply hca
              rw [List.any_eq_true]
              exact ⟨p, hp, by simp [hne, hcf]⟩
          · exact ih _ tl2 db3 heq q hq2 p hp hne

/-- Helper: a successful create loop appends, in order, one date-bound
row per remaining batch element (fields copied from the element) and
changes nothing else in the slot list. -/
theorem altCreateLoop_ok_spec (all : List AlternateSlotPayload) (date : Nat)
    (dow : DayOfWeek) (l : List (Nat × AlternateSlotPayload)) :
    ∀ (db : DB) (rows : List TimetableSlot) (db2 : DB),
      altCreateLoop all date dow db l = Except.ok (rows, db2) →
      db2.slots = db.slots ++ rows
      ∧ List.Forall₂ (fun (jc : Nat × AlternateSlotPayload) s =>
          matchesNormPayload date jc.2 s) l rows := by
  induction l with
  | nil =>
    intro db rows db2 h
    cases h
    exact ⟨(List.append_nil _).symm, List.Forall₂.nil⟩
  | cons hd tl ih =>
    intro db rows db2 h
    unfold altCreateLoop at h
    split at h
    · exact Except.noConfusion h
    · split at h
      · exact Except.noConfusion h
      · dsimp only at h
        split at h
        · exact Except.noConfusion h
        · rename_i tl2 db3 heq
          cases h
          obtain ⟨hslots, hF⟩ := ih _ _ _ heq
          refine ⟨?_, List.Forall₂.cons ⟨rfl, rfl, rfl, rfl, rfl, rfl, rfl, rfl⟩ hF⟩
          rw [hslots, List.append_assoc]
          rfl

/-- Helper: dropping the enumeration indices preserves a pointwise
relation that only looks at the enumerated elements. -/
theorem forall₂_of_enumFrom {α β : Type} {P : α → β → Prop} :
    ∀ (l : List α) (off : Nat) (rows : List β),
      List.Forall₂ (fun (jc : Nat × α) s => P jc.2 s) (List.enumFrom off l) rows →
      List.Forall₂ P l rows := by
  intro l
  induction l with
  | nil =>
    intro off rows h
    cases h
    exact List.Forall₂.nil
  | cons hd tl ih =>
    intro off rows h
    cases h with
    | cons hhd htl => exact List.Forall₂.cons hhd (ih _ _ htl)

/-- C4: setAlternateTimetable is an atomic full replace.  For a batch
passing per-slot validation: (i) if two distinct batch positions clash
on teacher or on class/section with overlapping intervals, the call
fails with a ConflictError and the store is exactly what it was before
the call (the transaction rolls back, so no partial write is visible);
(ii) if the call succeeds, the rows persisted with the target date are
exactly the submitted batch (in order, fields copied, section
normalized, dayOfWeek derived) and all rows with any other date value
are untouched — so a second call for the same date leaves only the
second batch. -/
theorem C4_alternate_atomic_full_replace (db : DB) (date : Nat)
    (sd : List AlternateSlotPayload)
    (hv : sd.findSome? (validateAltSlot db.teachers) = none) :
    (intraBatchConflict (sd.map normalizeAltSlot) →
      (∃ k, setAlternateTimetable db date sd = ApiResult.conflictError k none)
      ∧ dbAfter db (setAlternateTimetable db date sd) = db)
    ∧ (∀ rows db2, setAlternateTimetable db date sd = ApiResult.ok rows db2 →
      db2.slots.filter (fun s => s.date == some date) = rows
      ∧ db2.slots.filter (fun s => s.date != some date)
          = db.slots.filter (fun s => s.date != some date)
      ∧ List.Forall₂ (matchesAltPayload date) sd rows) := by
  constructor
  · intro hconf
    cases hloop : altCreateLoop (sd.map normalizeAltSlot) date (getDayOfWeekFromDate date)
        { db with slots := db.slots.filter (fun s => s.date != some date) }
        (sd.map normalizeAltSlot).enum with
    | error k =>
      have hres : setAlternateTimetable db date sd = ApiResult.conflictError k none := by
        unfold setAlternateTimetable
        rw [hv]
        dsimp only
        rw [hloop]
      refine ⟨⟨k, hres⟩, ?_⟩
      rw [hres]
      rfl
    | ok pr =>
      exfalso
      obtain ⟨p, q, hp, hq, hne, hc⟩ := hconf
      have hnc := altCreateLoop_ok_no_conflict (sd.map normalizeAltSlot) date
        (getDayOfWeekFromDate date) (sd.map normalizeAltSlot).enum
        { db with slots := db.slots.filter (fun s => s.date != some date) }
        pr.1 pr.2 (by rw [hloop]) q hq p hp hne
      rcases hc with hc | hc
      · rw [hnc.1] at hc
        exact Bool.false_ne_true hc
      · rw [hnc.2] at hc
        exact Bool.false_ne_true hc
  · intro rows db2 h
    unfold setAlternateTimetable at h
    rw [hv] at h
    dsimp only at h
    split at h
    · exact ApiResult.noConfusion h
    · rename_i created db3 heq
      cases h
      obtain ⟨hslots, hF⟩ := altCreateLoop_ok_spec (sd.map normalizeAltSlot) date
        (getDayOfWeekFromDate date) (sd.map normalizeAltSlot).enum
        { db with slots := db.slots.filter (fun s => s.date != some date) }
        rows db2 heq
      have hrowsdate : ∀ s ∈ rows, s.date = some date := by
        intro s hs
        exact (altCreateLoop_created_fields (sd.map normalizeAltSlot) date
          (getDayOfWeekFromDate date) (sd.map normalizeAltSlot).enum
          { db with slots := db.slots.filter (fun s => s.date != some date) }
          rows db2 heq s hs).2
      refine ⟨?_, ?_, ?_⟩
      · rw [hslots, List.filter_append]
        have h1 : ((db.slots.filter (fun s => s.date != some date)).filter
            (fun s => s.date == some date)) = [] := by
          rw [List.filter_filter]
          apply List.filter_eq_nil_iff.mpr
          intro a _
          simp only [Bool.and_eq_true, beq_iff_eq, bne_iff_ne, ne_eq]
          rintro ⟨h1, h2⟩
          exact h2 h1
        have h2 : rows.filter (fun s => s.date == some date) = rows := by
          apply List.filter_eq_self.mpr
          intro a ha
          simp [hrowsdate a ha]
        rw [h1, h2]
        rfl
      · rw [hslots, List.filter_append]
        have h1 : ((db.slots.filter (fun s => s.date != some date)).filter
            (fun s => s.date != some date))
            = db.slots.filter (fun s => s.date != some date) := by
          rw [List.filter_filter]
          apply List.filter_congr
          intro a _
          exact Bool.and_self _
        have h2 : rows.filter (fun s => s.date != some date) = [] := by
          apply List.filter_eq_nil_iff.mpr
          intro a ha
          simp [hrowsdate a ha]
        rw [h1, h2, List.append_nil]
      · have hFnorm : List.Forall₂ (fun a s => matchesNormPayload date a s)
            (sd.map normalizeAltSlot) rows :=
          forall₂_of_enumFrom (sd.map normalizeAltSlot) 0 rows hF
        have hFsd : List.Forall₂ (fun a s => matchesNormPayload date (normalizeAltSlot a) s)
            sd rows := List.forall₂_map_left_iff.mp hFnorm
        exact hFsd.imp (fun a s hx => hx)

/-- A weekly slot unaffected by alternate-day replacement. -/
def C4weekly : TimetableSlot :=
  { id := 1, dayOfWeek := DayOfWeek.MONDAY, startTime := t0900, endTime := t1000,
    currentClass := "10", sectionName := none, subject := "Maths",
    teacherId := none, substituteTeacherId := none, date := none }

/-- A date-bound slot from an earlier alternate call for epoch day 4,
superseded by the new batch. -/
def C4old : TimetableSlot :=
  { id := 2, dayOfWeek := DayOfWeek.MONDAY, startTime := t0900, endTime := t1000,
    currentClass := "10", sectionName := none, subject := "History",
    teacherId := none, substituteTeacherId := none, date := some 4 }

/-- Store for the C4 witness; user 1 is a teacher. -/
def C4db : DB := { slots := [C4weekly, C4old], teachers := [1], nextId := 10 }

/-- The single element of the new batch for epoch day 4. -/
def C4pl : AlternateSlotPayload :=
  { startTime := t1000, endTime := t1030, currentClass := "10",
    sectionName := none, subject := "Physics", teacherId := some 1 }

/-- The row the alternate call creates from C4pl. -/
def C4new : TimetableSlot :=
  { id := 10, dayOfWeek := DayOfWeek.MONDAY, startTime := t1000, endTime := t1030,
    currentClass := "10", sectionName := none, subject := "Physics",
    teacherId := some 1, substituteTeacherId := none, date := some 4 }

/-- The store after the successful alternate call for epoch day 4. -/
def C4db2 : DB := { slots := [C4weekly, C4new], teachers := [1], nextId := 11 }

/-- Witness for C4_alternate_atomic_full_replace: a concrete valid batch
replaces the previous date-bound slot of epoch day 4 and leaves the
weekly slot untouched. -/
theorem C4_witness :
    ([C4pl].findSome? (validateAltSlot C4db.teachers) = none)
    ∧ setAlternateTimetable C4db 4 [C4pl] = ApiResult.ok [C4new] C4db2
    ∧ C4db2.slots.filter (fun s => s.date == some 4) = [C4new]
    ∧ C4db2.slots.filter (fun s => s.date != some 4)
        = C4db.slots.filter (fun s => s.date != some 4)
    ∧ List.Forall₂ (matchesAltPayload 4) [C4pl] [C4new] :=
  ⟨rfl, rfl,
    ((C4_alternate_atomic_full_replace C4db 4 [C4pl] rfl).2 [C4new] C4db2 rfl).1,
    ((C4_alternate_atomic_full_replace C4db 4 [C4pl] rfl).2 [C4new] C4db2 rfl).2.1,
    ((C4_alternate_atomic_full_replace C4db 4 [C4pl] rfl).2 [C4new] C4db2 rfl).2.2⟩

end SchoolMS
